import Mathlib

/-!
Verification development for the Halden weather MCP server
(two near-identical JS entry points; the richer file carries the four
forecast tools, the other adds a free-text local search tool).

Shallow embedding conventions:
* JS numbers that the claims reason about (temperatures, wind speeds,
  precipitation amounts) are modelled as rationals; all comparisons in
  the source are plain numeric comparisons on such values.
* ISO-8601 timestamps are modelled as epoch seconds (a natural number);
  the UTC calendar date portion used as a day key corresponds to the
  epoch day number, and the hour of day to the epoch hour modulo 24
  (the process local time zone is modelled as UTC).
* Optional JSON fields are Option values; JS optional chaining through
  a missing field yields none.
* A handler body that would raise a runtime TypeError (reading a field
  of undefined) is modelled with Except.error; values returned normally
  are Except.ok.
* Network effects are modelled by passing the outcome of the single
  HTTP exchange as an explicit argument to the client function.
-/

namespace HaldenWeather

/-- Substring occurrence test on character lists: true when pat occurs
contiguously in s. Models the JS String.prototype.includes used by the
icon mapper. -/
def isPrefixOfL : List Char → List Char → Bool
  | [], _ => true
  | _ :: _, [] => false
  | a :: as, b :: bs => a = b && isPrefixOfL as bs

/-- Occurrence of pat anywhere in s (character lists). -/
def hasSub (pat : List Char) : List Char → Bool
  | [] => isPrefixOfL pat []
  | c :: rest => isPrefixOfL pat (c :: rest) || hasSub pat rest

/-- JS s.includes(pat), on strings. -/
def containsSub (s pat : String) : Bool :=
  hasSub pat.data s.data

/-- The icon mapper formatWeatherIcon of the source: substring checks in
fixed priority order, default glyph for absent, empty or unmatched codes.
The JS guard (!symbolCode) is true both for undefined and for the empty
string, hence the separate empty-string branch. -/
def formatWeatherIcon (symbolCode : Option String) : String :=
  match symbolCode with
  | none => "🌤️"
  | some s =>
    if s = "" then "🌤️"
    else if containsSub s "rain" then "🌧️"
    else if containsSub s "snow" then "❄️"
    else if containsSub s "thunder" then "⛈️"
    else if containsSub s "fog" then "🌫️"
    else if containsSub s "cloudy" then "☁️"
    else if containsSub s "fair" then "🌤️"
    else if containsSub s "clear" then "☀️"
    else "🌤️"

/-- The priority table of the icon mapper, written from the words of the
specification (rain, snow, thunder, fog, cloudy, fair, clear, first match
wins); used only to state the refinement claim about formatWeatherIcon. -/
def iconTable : List (String × String) :=
  [("rain", "🌧️"), ("snow", "❄️"), ("thunder", "⛈️"), ("fog", "🌫️"),
   ("cloudy", "☁️"), ("fair", "🌤️"), ("clear", "☀️")]

/-- Spec-side icon function: the glyph of the first pattern of the
priority table occurring in the code, default otherwise. -/
def specIcon (symbolCode : Option String) : String :=
  match symbolCode with
  | none => "🌤️"
  | some s =>
    match (iconTable.find? fun p => containsSub s p.1) with
    | some p => p.2
    | none => "🌤️"

/-- data.instant.details of a forecast entry. -/
structure InstantDetails where
  air_temperature : Rat
  wind_speed : Rat
  relative_humidity : Rat
  air_pressure_at_sea_level : Rat
deriving Repr, DecidableEq

/-- data.instant of a forecast entry. -/
structure InstantBlock where
  details : InstantDetails
deriving Repr, DecidableEq

/-- data.next_1_hours.summary; symbol_code may be absent. -/
structure N1HSummary where
  symbol_code : Option String
deriving Repr, DecidableEq

/-- data.next_1_hours.details; precipitation_amount may be absent. -/
structure N1HDetails where
  precipitation_amount : Option Rat
deriving Repr, DecidableEq

/-- data.next_1_hours of a forecast entry; summary and details blocks
may each be absent. -/
structure Next1Hours where
  summary : Option N1HSummary
  details : Option N1HDetails
deriving Repr, DecidableEq

/-- The data field of a forecast entry. -/
structure EntryData where
  instant : InstantBlock
  next_1_hours : Option Next1Hours
deriving Repr, DecidableEq

/-- One element of properties.timeseries; time is epoch seconds. -/
structure ForecastEntry where
  time : Nat
  data : EntryData
deriving Repr, DecidableEq

/-- properties of the YR response body. -/
structure ForecastProperties where
  timeseries : List ForecastEntry
deriving Repr, DecidableEq

/-- A successfully parsed YR locationforecast response body. -/
structure Forecast where
  properties : ForecastProperties
deriving Repr, DecidableEq

/-- entry.data.next_1_hours?.summary?.symbol_code via optional chaining. -/
def symbolCodeOf (e : ForecastEntry) : Option String :=
  (e.data.next_1_hours.bind (fun n => n.summary)).bind (fun s => s.symbol_code)

/-- entry.data.next_1_hours?.details?.precipitation_amount via optional
chaining. -/
def precipAmountOf (e : ForecastEntry) : Option Rat :=
  (e.data.next_1_hours.bind (fun n => n.details)).bind (fun d => d.precipitation_amount)

/-- JS (x || 0) on an optionally absent number: undefined and 0 both give
0, any other number gives itself. -/
def jsOrZero (x : Option Rat) : Rat :=
  match x with
  | none => 0
  | some a => if a = 0 then 0 else a

/-- Epoch day number of a timestamp: the UTC calendar date portion that
new Date(t).toISOString().split at T yields, in day-key form. -/
def dayKey (t : Nat) : Nat := t / 86400

/-- Hour of day of a timestamp (process time zone modelled as UTC). -/
def hourOfDay (t : Nat) : Nat := t % 86400 / 3600

/-- Day key of a forecast entry. -/
def entryDayKey (e : ForecastEntry) : Nat := dayKey e.time

/-- Instantaneous air temperature of an entry. -/
def entryTemp (e : ForecastEntry) : Rat :=
  e.data.instant.details.air_temperature

/-- Instantaneous wind speed of an entry. -/
def entryWind (e : ForecastEntry) : Rat :=
  e.data.instant.details.wind_speed

/-- Outcome of the single HTTP exchange of the forecast client: non-2xx
response, network-level failure, body that fails to parse (or lacks the
properties.timeseries path, which also raises inside the try block), or
a parsed body. -/
inductive FetchOutcome where
  | httpError (status : Nat)
  | networkError
  | malformedJson
  | ok (data : Forecast)
deriving Repr, DecidableEq

/-- fetchHaldenForecast: every failure mode is caught inside the try
block and turned into the null sentinel; a parsed body is returned
as is. -/
def fetchHaldenForecast (outcome : FetchOutcome) : Option Forecast :=
  match outcome with
  | .ok data => some data
  | .httpError _ => none
  | .networkError => none
  | .malformedJson => none

/-- One Brave web search result. -/
structure SearchResult where
  title : String
  url : String
  description : String
deriving Repr, DecidableEq

/-- The web section of a Brave response body. -/
structure WebSection where
  results : List SearchResult
deriving Repr, DecidableEq

/-- A parsed Brave search response body; the web section may be absent. -/
structure SearchBody where
  web : Option WebSection
deriving Repr, DecidableEq

/-- Outcome of the single HTTP exchange of the search client. -/
inductive SearchOutcome where
  | httpError (status : Nat)
  | networkError
  | malformedJson
  | ok (body : SearchBody)
deriving Repr, DecidableEq

/-- JS truthiness of the BRAVE_API_KEY environment value: configured
means present and not the empty string. -/
def keyConfigured (key : Option String) : Bool :=
  match key with
  | none => false
  | some s => !(s = "")

/-- braveSearch: with no (truthy) credential it returns the null
sentinel before any network activity; otherwise it performs the single
exchange and returns the parsed body, or null on an HTTP error, network
failure or malformed body. The second component records whether the
network call was issued. The query and count arguments only shape the
request URL. -/
def braveSearch (key : Option String) (query : String) (count : Nat)
    (outcome : SearchOutcome) : Option SearchBody × Bool :=
  if keyConfigured key then
    match outcome with
    | .ok body => (some body, true)
    | .httpError _ => (none, true)
    | .networkError => (none, true)
    | .malformedJson => (none, true)
  else
    let _ := query
    let _ := count
    (none, false)

/-- A runtime exception escaping a handler (reading a field of
undefined after indexing an empty timeseries). -/
inductive JsError where
  | typeError
deriving Repr, DecidableEq

/-- A handler reply: either the fixed failure text of its sentinel
check, or its success payload. -/
inductive HandlerResult (α : Type) where
  | failure (text : String)
  | ok (val : α)
deriving Repr, DecidableEq

/-- Success payload of the current-weather tool. -/
structure CurrentWeather where
  icon : String
  temperature : Rat
  wind : Rat
  humidity : Rat
  pressure : Rat
deriving Repr, DecidableEq

/-- Tool 1, get-current-weather: sentinel check, then the first
timeseries entry is read; on an empty series the index-0 access yields
undefined and the following field read raises. -/
def getCurrentWeather (fetched : Option Forecast) :
    Except JsError (HandlerResult CurrentWeather) :=
  match fetched with
  | none => .ok (.failure "❌ Unable to fetch current weather data from YR API. Please try again later.")
  | some data =>
    match data.properties.timeseries.head? with
    | none => .error .typeError
    | some current =>
      let details := current.data.instant.details
      let icon := formatWeatherIcon (symbolCodeOf current)
      .ok (.ok { icon := icon
               , temperature := details.air_temperature
               , wind := details.wind_speed
               , humidity := details.relative_humidity
               , pressure := details.air_pressure_at_sea_level })

/-- One formatted line of the hourly forecast, as its components. -/
structure HourLine where
  hour : Nat
  icon : String
  temp : Rat
  wind : Rat
  precip : Rat
  rainNote : Bool
deriving Repr, DecidableEq

/-- The line the hourly handler formats for one entry; rainNote records
whether the precipitation suffix is appended (precip greater than 0). -/
def hourLineOf (entry : ForecastEntry) : HourLine :=
  let details := entry.data.instant.details
  let icon := formatWeatherIcon (symbolCodeOf entry)
  let precip := jsOrZero (precipAmountOf entry)
  { hour := hourOfDay entry.time
  , icon := icon
  , temp := details.air_temperature
  , wind := details.wind_speed
  , precip := precip
  , rainNote := decide (0 < precip) }

/-- The per-entry lines of the hourly handler: slice(0, 12) then map. -/
def hourlyLines (data : Forecast) : List HourLine :=
  (data.properties.timeseries.take 12).map hourLineOf

/-- Tool 2, get-hourly-forecast: sentinel check, then one line per
entry of the first-12 slice (never an error, even on an empty series). -/
def getHourlyForecast (fetched : Option Forecast) :
    Except JsError (HandlerResult (List HourLine)) :=
  match fetched with
  | none => .ok (.failure "Failed to get forecast data.")
  | some data => .ok (.ok (hourlyLines data))

/-- The per-day accumulator object of the 3-day handler. -/
structure DayData where
  temps : List Rat
  conditions : List String
  precipitation : Rat
deriving Repr, DecidableEq

/-- The fresh accumulator created for a day key not yet present. -/
def emptyDayData : DayData := { temps := [], conditions := [], precipitation := 0 }

/-- The symbol code pushed onto conditions: present and truthy (the JS
guard is the string itself, so the empty string is skipped). -/
def truthyCode (e : ForecastEntry) : Option String :=
  match symbolCodeOf e with
  | none => none
  | some c => if c = "" then none else some c

/-- Folding one entry into the accumulator of its day: push the
temperature, push the symbol code when truthy, add the precipitation
amount when truthy (adding a truthy amount equals adding jsOrZero of
it, since 0 is falsy and contributes nothing either way). -/
def pushEntry (d : DayData) (e : ForecastEntry) : DayData :=
  { temps := d.temps ++ [entryTemp e]
  , conditions := d.conditions ++ (match truthyCode e with
      | some c => [c]
      | none => [])
  , precipitation := match precipAmountOf e with
      | some a => if a = 0 then d.precipitation else d.precipitation + a
      | none => d.precipitation }

/-- The forEach body of the 3-day handler over the dailyData object:
update the existing day group in place, or append a new one (JS object
string keys keep insertion order, so first-seen order of day keys). -/
def addEntry (acc : List (Nat × DayData)) (e : ForecastEntry) :
    List (Nat × DayData) :=
  let k := entryDayKey e
  if acc.any (fun p => p.1 = k) then
    acc.map (fun p => if p.1 = k then (p.1, pushEntry p.2 e) else p)
  else
    acc ++ [(k, pushEntry emptyDayData e)]

/-- The dailyData object after the grouping loop, as an ordered
association list. -/
def groupByDay (entries : List ForecastEntry) : List (Nat × DayData) :=
  entries.foldl addEntry []

/-- Math.min spread over a temperature list; the empty case never
arises (every day group holds at least the temperature of the entry
that created it). -/
def listMin : List Rat → Rat
  | [] => 0
  | t :: ts => ts.foldl min t

/-- Math.max spread over a temperature list; empty case as in listMin. -/
def listMax : List Rat → Rat
  | [] => 0
  | t :: ts => ts.foldl max t

/-- Occurrence count of a value in the conditions list of a day. -/
def countOcc (l : List String) (v : String) : Nat :=
  (l.filter (fun x => x = v)).length

/-- The mostCommon computation of the 3-day handler: sort the codes of
the day ascending by their occurrence count (the JS comparator is the
difference of the two filter lengths) and pop the last element; none on
an empty list (Array.prototype.pop of an empty array is undefined). -/
def jsMostCommon (conds : List String) : Option String :=
  (conds.mergeSort (fun a b => countOcc conds a ≤ countOcc conds b)).getLast?

/-- Number.prototype.toFixed(1) read back as a number, as the JS
relational comparison of the formatted string against 0 does: round to
the nearest tenth, ties toward the larger value. -/
def toFixed1 (x : Rat) : Rat := ((10 * x + 1 / 2).floor : Int) / 10

/-- One formatted line of the 3-day forecast, as its components; the
weekday label of the JS output is locale presentation and carries the
day key here. -/
structure DayLine where
  day : Nat
  icon : String
  minTemp : Rat
  maxTemp : Rat
  rain : Rat
  rainNote : Bool
deriving Repr, DecidableEq

/-- The line the 3-day handler formats for one day group: min and max
over the temperatures, icon of the most common condition, and the
precipitation suffix exactly when the toFixed(1)-formatted total
compares greater than 0. -/
def dayLineOf (p : Nat × DayData) : DayLine :=
  let minTemp := listMin p.2.temps
  let maxTemp := listMax p.2.temps
  let mostCommon := jsMostCommon p.2.conditions
  let icon := formatWeatherIcon mostCommon
  let rain := toFixed1 p.2.precipitation
  { day := p.1
  , icon := icon
  , minTemp := minTemp
  , maxTemp := maxTemp
  , rain := rain
  , rainNote := decide (0 < rain) }

/-- Tool 3, get-3day-forecast: sentinel check, group by day, then one
line per group of the first-3 slice. -/
def get3DayForecast (fetched : Option Forecast) :
    Except JsError (HandlerResult (List DayLine)) :=
  match fetched with
  | none => .ok (.failure "Failed to get forecast data.")
  | some data =>
    let dailyData := groupByDay data.properties.timeseries
    .ok (.ok ((dailyData.take 3).map dayLineOf))

/-- The four suggestion band messages and the wind warning. -/
def indoorMsg : String := "☔ Indoor activities recommended"

/-- Outdoor band message. -/
def outdoorMsg : String := "🌞 Great weather for outdoor activities"

/-- Cold band message. -/
def coldMsg : String := "🧊 Cold weather - indoor or winter activities"

/-- Mild default band message. -/
def mildMsg : String := "🚶 Mild weather - good for walking or light outdoor activities"

/-- Additive wind warning. -/
def windMsg : String := "💨 Windy conditions - sheltered activities preferred"

/-- The suggestion and query construction of the activity handler: one
band by the if chain, then the wind warning appended independently. -/
def buildSuggestions (hasRain : Bool) (temp wind : Rat) :
    List String × String :=
  let suggestions : List String := []
  let searchQuery := "Halden Norway "
  let (suggestions, searchQuery) :=
    if hasRain then
      (suggestions ++ [indoorMsg], searchQuery ++ "indoor activities museums cafes")
    else if 15 < temp then
      (suggestions ++ [outdoorMsg], searchQuery ++ "hiking parks outdoor activities")
    else if temp < 5 then
      (suggestions ++ [coldMsg], searchQuery ++ "winter activities indoor venues")
    else
      (suggestions ++ [mildMsg], searchQuery ++ "walking trails parks cafes")
  let suggestions :=
    if 10 < wind then suggestions ++ [windMsg] else suggestions
  (suggestions, searchQuery)

/-- Success payload of the activity handler: header values, the
suggestion lines, the derived query, the venue section when appended,
and whether the enable-search hint is appended instead. -/
structure ActivityOut where
  temp : Rat
  wind : Rat
  suggestions : List String
  searchQuery : String
  venues : Option (List SearchResult)
  hint : Bool
deriving Repr, DecidableEq

/-- The hasRain test of the activity handler: the optional next-hour
precipitation amount compared against 0 with the JS relational
operator, which is false on undefined. -/
def hasRainOf (e : ForecastEntry) : Bool :=
  match precipAmountOf e with
  | some a => decide (0 < a)
  | none => false

/-- The venue section of the activity handler: with a truthy key the
2-result search runs, and the section is appended only when the body
holds a non-empty web.results (a failed or empty search degrades to no
section); without a key no search runs. -/
def venuesFor (key : Option String) (searchQuery : String)
    (searchOutcome : SearchOutcome) : Option (List SearchResult) :=
  if keyConfigured key then
    match (braveSearch key searchQuery 2 searchOutcome).1 with
    | some body =>
      match body.web with
      | some w => if w.results.isEmpty then none else some w.results
      | none => none
    | none => none
  else none

/-- Tool 4, suggest-activities: sentinel check, first entry read (index
0, raising on an empty series), hasRain from the optional next-hour
precipitation amount compared against 0 (absent compares false), band
and wind warning, then the optional venue section, or the enable-search
hint when no key is configured. -/
def suggestActivities (fetched : Option Forecast) (key : Option String)
    (searchOutcome : SearchOutcome) :
    Except JsError (HandlerResult ActivityOut) :=
  match fetched with
  | none => .ok (.failure "❌ Unable to get weather data for activity suggestions.")
  | some data =>
    match data.properties.timeseries.head? with
    | none => .error .typeError
    | some current =>
      let temp := current.data.instant.details.air_temperature
      let wind := current.data.instant.details.wind_speed
      let (suggestions, searchQuery) := buildSuggestions (hasRainOf current) temp wind
      .ok (.ok { temp := temp
               , wind := wind
               , suggestions := suggestions
               , searchQuery := searchQuery
               , venues := venuesFor key searchQuery searchOutcome
               , hint := !keyConfigured key })

/-- The distinct elements of a list in first-seen order; used to state
what the day-grouping loop computes. -/
def firstSeen : List Nat → List Nat
  | [] => []
  | k :: ks => k :: (firstSeen ks).filter (fun x => x != k)

/-- The entries of a given day, in source order. -/
def dayEntries (k : Nat) (es : List ForecastEntry) : List ForecastEntry :=
  es.filter (fun e => entryDayKey e == k)

/-- The day accumulator a day key ends up with, described directly:
temperatures of the entries of the day in order, their truthy symbol
codes in order, and the sum of their truthy precipitation amounts. -/
def dayDataFor (k : Nat) (es : List ForecastEntry) : DayData :=
  { temps := (dayEntries k es).map entryTemp
  , conditions := (dayEntries k es).filterMap truthyCode
  , precipitation := ((dayEntries k es).map (fun e => jsOrZero (precipAmountOf e))).sum }

lemma mem_firstSeen {x : Nat} : ∀ {l : List Nat}, x ∈ firstSeen l ↔ x ∈ l := by
  intro l
  induction l with
  | nil => simp [firstSeen]
  | cons k ks ih =>
    simp only [firstSeen, List.mem_cons, List.mem_filter, ih, bne_iff_ne]
    by_cases hx : x = k <;> simp [hx]

lemma firstSeen_append_singleton (l : List Nat) (x : Nat) :
    firstSeen (l ++ [x]) =
      if x ∈ l then firstSeen l else firstSeen l ++ [x] := by
  induction l with
  | nil => simp [firstSeen]
  | cons k ks ih =>
    by_cases hxl : x ∈ ks
    · simp [firstSeen, ih, hxl, List.mem_cons]
    · by_cases hxk : x = k
      · subst hxk
        simp [firstSeen, ih, hxl, List.filter_append, List.mem_cons]
      · simp [firstSeen, ih, hxl, hxk, List.filter_append, List.mem_cons,
          bne_iff_ne, Ne.symm hxk]

lemma dayEntries_append (k : Nat) (es : List ForecastEntry) (e : ForecastEntry) :
    dayEntries k (es ++ [e]) =
      dayEntries k es ++ (if entryDayKey e = k then [e] else []) := by
  simp only [dayEntries, List.filter_append]
  by_cases hk : entryDayKey e = k <;> simp [hk]

lemma pushEntry_precipitation (d : DayData) (e : ForecastEntry) :
    (pushEntry d e).precipitation =
      d.precipitation + jsOrZero (precipAmountOf e) := by
  simp only [pushEntry, jsOrZero]
  cases precipAmountOf e with
  | none => simp
  | some a =>
    by_cases ha : a = 0 <;> simp [ha]

lemma dayDataFor_append (k : Nat) (es : List ForecastEntry) (e : ForecastEntry) :
    dayDataFor k (es ++ [e]) =
      if entryDayKey e = k then pushEntry (dayDataFor k es) e
      else dayDataFor k es := by
  by_cases hk : entryDayKey e = k
  · rw [if_pos hk]
    have hE : dayEntries k (es ++ [e]) = dayEntries k es ++ [e] := by
      rw [dayEntries_append, if_pos hk]
    simp only [dayDataFor, hE, List.map_append, List.filterMap_append,
      List.sum_append, pushEntry]
    congr 1
    · cases hc : truthyCode e <;> simp [List.filterMap, hc]
    · cases hp : precipAmountOf e with
      | none => simp [hp, jsOrZero]
      | some a =>
        by_cases ha : a = 0 <;> simp [hp, ha, jsOrZero]
  · rw [if_neg hk]
    have hE : dayEntries k (es ++ [e]) = dayEntries k es := by
      rw [dayEntries_append, if_neg hk, List.append_nil]
    simp only [dayDataFor, hE]

lemma dayDataFor_of_not_mem (k : Nat) (es : List ForecastEntry)
    (h : k ∉ es.map entryDayKey) : dayDataFor k es = emptyDayData := by
  have hnil : dayEntries k es = [] := by
    rw [dayEntries, List.filter_eq_nil_iff]
    intro e he hk
    exact h (List.mem_map.mpr ⟨e, he, by simpa using hk⟩)
  simp [dayDataFor, hnil, emptyDayData]

/-- The grouping loop computes, for the first-seen sequence of day
keys, exactly the per-day data described by dayDataFor. -/
lemma groupByDay_eq (es : List ForecastEntry) :
    groupByDay es =
      (firstSeen (es.map entryDayKey)).map (fun k => (k, dayDataFor k es)) := by
  induction es using List.reverseRecOn with
  | nil => rfl
  | append_singleton es e ih =>
    have hfold : groupByDay (es ++ [e]) = addEntry (groupByDay es) e := by
      simp [groupByDay, List.foldl_append]
    rw [hfold, ih]
    by_cases hmem : entryDayKey e ∈ es.map entryDayKey
    · have hany : (((firstSeen (es.map entryDayKey)).map
          (fun k => (k, dayDataFor k es))).any
            (fun p => p.1 = entryDayKey e)) = true := by
        rw [List.any_eq_true]
        refine ⟨(entryDayKey e, dayDataFor (entryDayKey e) es), ?_, by simp⟩
        exact List.mem_map.mpr ⟨entryDayKey e, mem_firstSeen.mpr hmem, rfl⟩
      rw [addEntry]
      simp only [hany, if_true, List.map_map]
      simp only [List.map_append, List.map_cons, List.map_nil]
      rw [firstSeen_append_singleton]
      simp only [hmem, if_true]
      apply List.map_congr_left
      intro k _
      by_cases hk : k = entryDayKey e
      · subst hk
        simp [dayDataFor_append, Function.comp]
      · have hne : entryDayKey e ≠ k := fun h => hk h.symm
        simp [dayDataFor_append, hne, hk, Function.comp]
    · have hany : (((firstSeen (es.map entryDayKey)).map
          (fun k => (k, dayDataFor k es))).any
            (fun p => p.1 = entryDayKey e)) = false := by
        rw [List.any_eq_false]
        rintro ⟨k, d⟩ hp
        obtain ⟨k', hk', hEq⟩ := List.mem_map.mp hp
        cases hEq
        simp only [decide_eq_true_eq]
        intro hke
        exact hmem (mem_firstSeen.mp (hke ▸ hk'))
      rw [addEntry]
      simp only [hany, Bool.false_eq_true, if_false]
      simp only [List.map_append, List.map_cons, List.map_nil]
      rw [firstSeen_append_singleton]
      simp only [hmem, if_false, List.map_append]
      congr 1
      · apply List.map_congr_left
        intro k hk
        have hkne : entryDayKey e ≠ k := by
          intro h
          exact hmem (h ▸ mem_firstSeen.mp hk)
        simp [dayDataFor_append, hkne]
      · simp only [List.map_cons, List.map_nil]
        rw [dayDataFor_append, if_pos rfl, dayDataFor_of_not_mem _ _ hmem]

lemma foldl_min_le_init (l : List Rat) (a : Rat) : l.foldl min a ≤ a := by
  induction l generalizing a with
  | nil => exact le_refl a
  | cons b t ih =>
    exact le_trans (ih (min a b)) (min_le_left a b)

lemma foldl_min_le_mem (l : List Rat) (a : Rat) :
    ∀ x ∈ l, l.foldl min a ≤ x := by
  induction l generalizing a with
  | nil => intro x hx; cases hx
  | cons b t ih =>
    intro x hx
    rcases List.mem_cons.mp hx with h | h
    · subst h
      exact le_trans (foldl_min_le_init t (min a x)) (min_le_right a x)
    · exact ih (min a b) x h

lemma foldl_min_mem (l : List Rat) (a : Rat) :
    l.foldl min a = a ∨ l.foldl min a ∈ l := by
  induction l generalizing a with
  | nil => exact Or.inl rfl
  | cons b t ih =>
    rcases ih (min a b) with h | h
    · rcases min_choice a b with hm | hm
      · exact Or.inl (by rw [List.foldl_cons, h, hm])
      · exact Or.inr (by rw [List.foldl_cons, h, hm]; exact List.mem_cons_self b t)
    · exact Or.inr (List.mem_cons_of_mem b h)

lemma foldl_max_ge_init (l : List Rat) (a : Rat) : a ≤ l.foldl max a := by
  induction l generalizing a with
  | nil => exact le_refl a
  | cons b t ih =>
    exact le_trans (le_max_left a b) (ih (max a b))

lemma foldl_max_ge_mem (l : List Rat) (a : Rat) :
    ∀ x ∈ l, x ≤ l.foldl max a := by
  induction l generalizing a with
  | nil => intro x hx; cases hx
  | cons b t ih =>
    intro x hx
    rcases List.mem_cons.mp hx with h | h
    · subst h
      exact le_trans (le_max_right a x) (foldl_max_ge_init t (max a x))
    · exact ih (max a b) x h

lemma foldl_max_mem (l : List Rat) (a : Rat) :
    l.foldl max a = a ∨ l.foldl max a ∈ l := by
  induction l generalizing a with
  | nil => exact Or.inl rfl
  | cons b t ih =>
    rcases ih (max a b) with h | h
    · rcases max_choice a b with hm | hm
      · exact Or.inl (by rw [List.foldl_cons, h, hm])
      · exact Or.inr (by rw [List.foldl_cons, h, hm]; exact List.mem_cons_self b t)
    · exact Or.inr (List.mem_cons_of_mem b h)

lemma listMin_mem {l : List Rat} (h : l ≠ []) : listMin l ∈ l := by
  match l, h with
  | t :: ts, _ =>
    rcases foldl_min_mem ts t with h | h
    · rw [listMin, h]; exact List.mem_cons_self t ts
    · exact List.mem_cons_of_mem t h

lemma listMin_le {l : List Rat} : ∀ x ∈ l, listMin l ≤ x := by
  match l with
  | [] => intro x hx; cases hx
  | t :: ts =>
    intro x hx
    rcases List.mem_cons.mp hx with h | h
    · subst h; exact foldl_min_le_init ts x
    · exact foldl_min_le_mem ts t x h

lemma listMax_mem {l : List Rat} (h : l ≠ []) : listMax l ∈ l := by
  match l, h with
  | t :: ts, _ =>
    rcases foldl_max_mem ts t with h | h
    · rw [listMax, h]; exact List.mem_cons_self t ts
    · exact List.mem_cons_of_mem t h

lemma listMax_ge {l : List Rat} : ∀ x ∈ l, x ≤ listMax l := by
  match l with
  | [] => intro x hx; cases hx
  | t :: ts =>
    intro x hx
    rcases List.mem_cons.mp hx with h | h
    · subst h; exact foldl_max_ge_init ts x
    · exact foldl_max_ge_mem ts t x h

lemma getLast?_maximal {α : Type} {le : α → α → Bool} :
    ∀ {l : List α}, l.Pairwise (fun a b => le a b = true) →
      ∀ {c : α}, l.getLast? = some c → ∀ x ∈ l, x = c ∨ le x c = true := by
  intro l
  induction l with
  | nil => intro _ c hc; cases hc
  | cons a t ih =>
    intro hp c hc x hx
    cases t with
    | nil =>
      have hac : a = c := by simpa using hc
      rcases List.mem_singleton.mp hx with rfl
      exact Or.inl hac
    | cons b t2 =>
      rw [List.getLast?_cons_cons] at hc
      rcases List.mem_cons.mp hx with hxa | hx2
      · subst hxa
        right
        have hcmem : c ∈ b :: t2 := List.mem_of_getLast?_eq_some hc
        exact (List.pairwise_cons.mp hp).1 c hcmem
      · exact ih (List.pairwise_cons.mp hp).2 hc x hx2

/-- Fixture: a forecast entry with the given time, temperature, wind
and next-hour block; humidity and pressure fixed. -/
def mkEntry (t : Nat) (temp wind : Rat) (n1h : Option Next1Hours) :
    ForecastEntry :=
  { time := t
  , data :=
    { instant :=
      { details :=
        { air_temperature := temp
        , wind_speed := wind
        , relative_humidity := 50
        , air_pressure_at_sea_level := 1013 } }
    , next_1_hours := n1h } }

/-- Fixture: a parsed forecast with an empty timeseries. -/
def emptyForecast : Forecast := { properties := { timeseries := [] } }

/-- Fixture for the aggregation example: two calendar days, with
temperatures 2 and 8 on the first and 10 and 1 on the second. -/
def exampleAgg : Forecast :=
  { properties :=
    { timeseries :=
      [ mkEntry 0 2 3 none
      , mkEntry 3600 8 3 none
      , mkEntry 86400 10 3 none
      , mkEntry 90000 1 3 none ] } }

/-- Fixture for the precipitation threshold: a single entry whose
next-hour precipitation amount is 0.01 mm. -/
def examplePrecipSmall : Forecast :=
  { properties :=
    { timeseries :=
      [ mkEntry 0 5 2 (some { summary := none
                            , details := some { precipitation_amount := some (1 / 100) } }) ] } }

/-- Fixture for the amended precipitation threshold: a single entry
whose next-hour precipitation amount is 0.05 mm. -/
def examplePrecipHalf : Forecast :=
  { properties :=
    { timeseries :=
      [ mkEntry 0 5 2 (some { summary := none
                            , details := some { precipitation_amount := some (1 / 20) } }) ] } }

/-- Fixture entry for end-to-end scenario C of the specification:
precipitation 1.2 mm, wind 15 m/s. -/
def scenCEntry : ForecastEntry :=
  mkEntry 0 10 15 (some { summary := some { symbol_code := some "rain" }
                        , details := some { precipitation_amount := some (12 / 10) } })

/-- Fixture forecast for end-to-end scenario C. -/
def exampleScenC : Forecast :=
  { properties := { timeseries := [scenCEntry] } }

/-- Fixture: a single entry with no next-hour block at all. -/
def exampleNoN1H : Forecast :=
  { properties := { timeseries := [mkEntry 0 10 3 none] } }

/-- Fixture: a single ordinary entry for the hourly witness. -/
def exampleHourly : Forecast :=
  { properties :=
    { timeseries :=
      [ mkEntry 7200 4 6 (some { summary := some { symbol_code := some "cloudy" }
                               , details := some { precipitation_amount := some (3 / 10) } }) ] } }

end HaldenWeather

namespace HaldenWeather

/-- C3: the icon mapper is total on optional strings, agrees everywhere
with the first-match priority-table reading of the specification, yields
the default glyph on absent, empty or unmatched input, and a code
containing two of the substrings yields the earlier-priority glyph
(rain beats cloudy). -/
theorem formatWeatherIcon_correct :
    (∀ o : Option String, formatWeatherIcon o = specIcon o)
    ∧ formatWeatherIcon none = "🌤️"
    ∧ formatWeatherIcon (some "") = "🌤️"
    ∧ (∀ s : String,
        (iconTable.all fun p => !containsSub s p.1) →
          formatWeatherIcon (some s) = "🌤️")
    ∧ (∀ s : String, containsSub s "rain" → containsSub s "cloudy" →
        formatWeatherIcon (some s) = "🌧️") := by
  refine ⟨?_, rfl, by decide, ?_, ?_⟩
  · intro o
    match o with
    | none => rfl
    | some s =>
      by_cases h0 : s = ""
      · subst h0; decide
      · simp only [formatWeatherIcon, specIcon, iconTable, List.find?, h0, if_false]
        cases h1 : containsSub s "rain" <;> cases h2 : containsSub s "snow" <;>
          cases h3 : containsSub s "thunder" <;> cases h4 : containsSub s "fog" <;>
          cases h5 : containsSub s "cloudy" <;> cases h6 : containsSub s "fair" <;>
          cases h7 : containsSub s "clear" <;>
          simp [h1, h2, h3, h4, h5, h6, h7]
  · intro s hall
    simp only [iconTable, List.all_eq_true, List.mem_cons, List.mem_singleton] at hall
    have h1 := hall ("rain", "🌧️") (by simp)
    have h2 := hall ("snow", "❄️") (by simp)
    have h3 := hall ("thunder", "⛈️") (by simp)
    have h4 := hall ("fog", "🌫️") (by simp)
    have h5 := hall ("cloudy", "☁️") (by simp)
    have h6 := hall ("fair", "🌤️") (by simp)
    have h7 := hall ("clear", "☀️") (by simp)
    simp only [Bool.not_eq_true'] at h1 h2 h3 h4 h5 h6 h7
    simp only [formatWeatherIcon, h1, h2, h3, h4, h5, h6, h7, if_false]
    split <;> rfl
  · intro s h1 _
    by_cases h0 : s = ""
    · subst h0; exact absurd h1 (by decide)
    · simp only [formatWeatherIcon, h0, if_false, h1, if_true]

/-- Witness for C3 at concrete inputs: lightrainshowers_and_cloudy
contains both rain and cloudy and maps to the rain glyph; an unmatched
code maps to the default glyph. -/
theorem formatWeatherIcon_correct_witness :
    formatWeatherIcon (some "lightrainshowers_and_cloudy") = "🌧️"
    ∧ formatWeatherIcon (some "heavysleet") = "🌤️" := by
  constructor
  · exact formatWeatherIcon_correct.2.2.2.2 "lightrainshowers_and_cloudy"
      (by decide) (by decide)
  · exact formatWeatherIcon_correct.2.2.2.1 "heavysleet" (by decide)

/-- C8: for every non-empty condition list of a day group, the code the
aggregator selects (ascending count sort, then pop) occurs in the list
and no code of the list occurs strictly more often than it, however the
sort breaks ties. -/
theorem jsMostCommon_maximal (conds : List String) (h : conds ≠ []) :
    ∃ c, jsMostCommon conds = some c ∧ c ∈ conds ∧
      ∀ v ∈ conds, countOcc conds v ≤ countOcc conds c := by
  have htrans : ∀ a b c : String,
      (decide (countOcc conds a ≤ countOcc conds b)) = true →
      (decide (countOcc conds b ≤ countOcc conds c)) = true →
      (decide (countOcc conds a ≤ countOcc conds c)) = true := by
    intro a b c hab hbc
    simp only [decide_eq_true_eq] at hab hbc ⊢
    exact le_trans hab hbc
  have htotal : ∀ a b : String,
      ((decide (countOcc conds a ≤ countOcc conds b)) ||
        (decide (countOcc conds b ≤ countOcc conds a))) = true := by
    intro a b
    rcases Nat.le_total (countOcc conds a) (countOcc conds b) with hab | hab <;>
      simp [hab]
  have hsorted := List.sorted_mergeSort htrans htotal conds
  have hperm := List.mergeSort_perm conds
    (fun a b => decide (countOcc conds a ≤ countOcc conds b))
  have hne : conds.mergeSort
      (fun a b => decide (countOcc conds a ≤ countOcc conds b)) ≠ [] := by
    intro hnil
    exact h (List.Perm.eq_nil (hnil ▸ hperm.symm))
  refine ⟨(conds.mergeSort
      (fun a b => decide (countOcc conds a ≤ countOcc conds b))).getLast hne,
    ?_, ?_, ?_⟩
  · rw [jsMostCommon]
    exact List.getLast?_eq_getLast _ hne
  · exact hperm.mem_iff.mp (List.getLast_mem hne)
  · intro v hv
    have hvs : v ∈ conds.mergeSort
        (fun a b => decide (countOcc conds a ≤ countOcc conds b)) :=
      hperm.mem_iff.mpr hv
    rcases getLast?_maximal hsorted (List.getLast?_eq_getLast _ hne) v hvs with
      hvc | hvc
    · rw [hvc]
    · exact decide_eq_true_eq.mp hvc

/-- Witness for C8: a concrete condition list with a tie-free majority. -/
theorem jsMostCommon_maximal_witness :
    (["lightrain", "cloudy", "lightrain"] : List String) ≠ []
    ∧ ∃ c, jsMostCommon ["lightrain", "cloudy", "lightrain"] = some c
        ∧ c ∈ ["lightrain", "cloudy", "lightrain"]
        ∧ ∀ v ∈ (["lightrain", "cloudy", "lightrain"] : List String),
            countOcc ["lightrain", "cloudy", "lightrain"] v ≤
              countOcc ["lightrain", "cloudy", "lightrain"] c :=
  ⟨by decide, jsMostCommon_maximal ["lightrain", "cloudy", "lightrain"] (by decide)⟩

lemma buildSuggestions_eq (hasRain : Bool) (temp wind : Rat) :
    buildSuggestions hasRain temp wind =
      ((if hasRain then indoorMsg
        else if 15 < temp then outdoorMsg
        else if temp < 5 then coldMsg
        else mildMsg) :: (if 10 < wind then [windMsg] else []),
       "Halden Norway " ++
        (if hasRain then "indoor activities museums cafes"
         else if 15 < temp then "hiking parks outdoor activities"
         else if temp < 5 then "winter activities indoor venues"
         else "walking trails parks cafes")) := by
  rw [buildSuggestions]
  by_cases hr : hasRain <;> by_cases h15 : 15 < temp <;>
    by_cases h5 : temp < 5 <;> by_cases hw : 10 < wind <;>
    simp [hr, h15, h5, hw]

lemma suggestActivities_some (f : Forecast) (e : ForecastEntry)
    (rest : List ForecastEntry) (key : Option String) (so : SearchOutcome)
    (hts : f.properties.timeseries = e :: rest)
    (sg : List String) (q : String)
    (hsq : buildSuggestions (hasRainOf e) (entryTemp e) (entryWind e) = (sg, q)) :
    suggestActivities (some f) key so =
      .ok (.ok { temp := entryTemp e
               , wind := entryWind e
               , suggestions := sg
               , searchQuery := q
               , venues := venuesFor key q so
               , hint := !keyConfigured key }) := by
  have hsq2 : buildSuggestions (hasRainOf e)
      e.data.instant.details.air_temperature
      e.data.instant.details.wind_speed = (sg, q) := hsq
  simp [suggestActivities, hts, entryTemp, entryWind, hsq2]

/-- C1: on every successfully fetched forecast the activity handler
emits exactly one of the four band messages, chosen by the fixed
priority order precipitation, warm, cold, mild over the first entry,
together with the matching search query, and appends the wind warning
after the band message exactly when the wind speed exceeds 10. -/
theorem suggestActivities_bands (f : Forecast) (e : ForecastEntry)
    (rest : List ForecastEntry) (key : Option String) (so : SearchOutcome)
    (hts : f.properties.timeseries = e :: rest) :
    ∃ out : ActivityOut,
      suggestActivities (some f) key so = .ok (.ok out)
      ∧ (∃ band q,
          out.suggestions = band :: (if 10 < entryWind e then [windMsg] else [])
          ∧ out.searchQuery = "Halden Norway " ++ q
          ∧ ((hasRainOf e = true ∧ band = indoorMsg
                ∧ q = "indoor activities museums cafes")
            ∨ (hasRainOf e = false ∧ 15 < entryTemp e ∧ band = outdoorMsg
                ∧ q = "hiking parks outdoor activities")
            ∨ (hasRainOf e = false ∧ ¬ 15 < entryTemp e ∧ entryTemp e < 5
                ∧ band = coldMsg ∧ q = "winter activities indoor venues")
            ∨ (hasRainOf e = false ∧ ¬ 15 < entryTemp e ∧ ¬ entryTemp e < 5
                ∧ band = mildMsg ∧ q = "walking trails parks cafes")))
      ∧ (windMsg ∈ out.suggestions ↔ 10 < entryWind e) := by
  have hsq := buildSuggestions_eq (hasRainOf e) (entryTemp e) (entryWind e)
  have hout := suggestActivities_some f e rest key so hts _ _ hsq
  refine ⟨_, hout,
    ⟨(if hasRainOf e then indoorMsg
      else if 15 < entryTemp e then outdoorMsg
      else if entryTemp e < 5 then coldMsg
      else mildMsg),
     (if hasRainOf e then "indoor activities museums cafes"
      else if 15 < entryTemp e then "hiking parks outdoor activities"
      else if entryTemp e < 5 then "winter activities indoor venues"
      else "walking trails parks cafes"), rfl, rfl, ?_⟩, ?_⟩
  · cases hr : hasRainOf e with
    | true => exact Or.inl ⟨rfl, by simp, by simp⟩
    | false =>
      by_cases h15 : 15 < entryTemp e
      · exact Or.inr (Or.inl ⟨rfl, h15, by simp [h15], by simp [h15]⟩)
      · by_cases h5 : entryTemp e < 5
        · exact Or.inr (Or.inr (Or.inl
            ⟨rfl, h15, h5, by simp [h15, h5], by simp [h15, h5]⟩))
        · exact Or.inr (Or.inr (Or.inr
            ⟨rfl, h15, h5, by simp [h15, h5], by simp [h15, h5]⟩))
  · by_cases hw : 10 < entryWind e
    · simp [hw]
    · rw [if_neg hw]
      simp only [List.mem_singleton]
      constructor
      · intro hmem
        exfalso
        by_cases hr : hasRainOf e <;> by_cases h15 : 15 < entryTemp e <;>
          by_cases h5 : entryTemp e < 5 <;>
          simp [hr, h15, h5, windMsg, indoorMsg, outdoorMsg, coldMsg,
            mildMsg] at hmem
      · intro h10
        exact absurd h10 hw

/-- Witness for C1 at scenario C of the specification: precipitation
1.2 mm and wind 15 m/s give the indoor band message followed by the
wind warning. -/
theorem suggestActivities_bands_witness :
    ∃ out : ActivityOut,
      suggestActivities (some exampleScenC) none .networkError = .ok (.ok out)
      ∧ (∃ band q,
          out.suggestions = band ::
            (if 10 < entryWind scenCEntry
             then [windMsg] else [])
          ∧ out.searchQuery = "Halden Norway " ++ q
          ∧ ((hasRainOf scenCEntry = true
                ∧ band = indoorMsg ∧ q = "indoor activities museums cafes")
            ∨ (hasRainOf scenCEntry = false
                ∧ 15 < entryTemp scenCEntry
                ∧ band = outdoorMsg ∧ q = "hiking parks outdoor activities")
            ∨ (hasRainOf scenCEntry = false
                ∧ ¬ 15 < entryTemp scenCEntry
                ∧ entryTemp scenCEntry < 5
                ∧ band = coldMsg ∧ q = "winter activities indoor venues")
            ∨ (hasRainOf scenCEntry = false
                ∧ ¬ 15 < entryTemp scenCEntry
                ∧ ¬ entryTemp scenCEntry < 5
                ∧ band = mildMsg ∧ q = "walking trails parks cafes")))
      ∧ (windMsg ∈ out.suggestions ↔
          10 < entryWind scenCEntry) :=
  suggestActivities_bands exampleScenC _ [] none .networkError rfl

/-- C2: the 3-day aggregation groups entries by UTC day key in
first-seen order, emits at most the first 3 day groups, each emitted
line carries the minimum and maximum of the temperatures of its day,
the group precipitation is the sum of the present next-hour amounts
with absent amounts contributing 0, and the two-day example of the
specification yields summaries (2, 8) and (1, 10) in day order. -/
theorem get3DayForecast_aggregates (entries : List ForecastEntry)
    (f : Forecast) (hf : f.properties.timeseries = entries) :
    get3DayForecast (some f) = .ok (.ok
      (((firstSeen (entries.map entryDayKey)).take 3).map
        (fun k => dayLineOf (k, dayDataFor k entries))))
    ∧ (((firstSeen (entries.map entryDayKey)).take 3).map
        (fun k => dayLineOf (k, dayDataFor k entries))).length
        = min 3 (firstSeen (entries.map entryDayKey)).length
    ∧ (∀ k ∈ (firstSeen (entries.map entryDayKey)).take 3,
        (dayDataFor k entries).temps = (dayEntries k entries).map entryTemp
        ∧ (dayDataFor k entries).precipitation =
            ((dayEntries k entries).map (fun e => jsOrZero (precipAmountOf e))).sum
        ∧ (dayDataFor k entries).temps ≠ []
        ∧ (dayLineOf (k, dayDataFor k entries)).minTemp ∈ (dayDataFor k entries).temps
        ∧ (∀ x ∈ (dayDataFor k entries).temps,
            (dayLineOf (k, dayDataFor k entries)).minTemp ≤ x)
        ∧ (dayLineOf (k, dayDataFor k entries)).maxTemp ∈ (dayDataFor k entries).temps
        ∧ (∀ x ∈ (dayDataFor k entries).temps,
            x ≤ (dayLineOf (k, dayDataFor k entries)).maxTemp))
    ∧ (∃ lines, get3DayForecast (some exampleAgg) = .ok (.ok lines)
        ∧ lines.map (fun d => (d.minTemp, d.maxTemp)) = [(2, 8), (1, 10)]) := by
  refine ⟨?_, ?_, ?_, ?_⟩
  · simp only [get3DayForecast, hf, groupByDay_eq, List.map_take,
      List.map_map, Function.comp]
    rfl
  · simp
  · intro k hk
    have hk2 : k ∈ entries.map entryDayKey :=
      mem_firstSeen.mp (List.mem_of_mem_take hk)
    obtain ⟨e, he, hek⟩ := List.mem_map.mp hk2
    have hde : e ∈ dayEntries k entries := by
      rw [dayEntries, List.mem_filter]
      exact ⟨he, by simp [hek]⟩
    have htne : (dayDataFor k entries).temps ≠ [] := by
      intro hnil
      rw [dayDataFor] at hnil
      simp only [List.map_eq_nil_iff] at hnil
      exact (List.ne_nil_of_mem hde) hnil
    refine ⟨rfl, rfl, htne, ?_, ?_, ?_, ?_⟩
    · exact listMin_mem htne
    · exact fun x hx => listMin_le x hx
    · exact listMax_mem htne
    · exact fun x hx => listMax_ge x hx
  · exact ⟨_, rfl, by decide⟩

/-- Witness for C2 at the example forecast of the specification. -/
theorem get3DayForecast_aggregates_witness :
    ∃ lines, get3DayForecast (some exampleAgg) = .ok (.ok lines)
      ∧ lines.map (fun d => (d.minTemp, d.maxTemp)) = [(2, 8), (1, 10)] :=
  (get3DayForecast_aggregates exampleAgg.properties.timeseries exampleAgg rfl).2.2.2

/-- C4: on every failing exchange (non-2xx status, network error,
malformed body) the forecast client yields the null sentinel without
raising, and on the sentinel each of the four handlers returns its
fixed failure text. -/
theorem fetch_failure_uniform (outcome : FetchOutcome)
    (h : ∀ d, outcome ≠ .ok d) :
    fetchHaldenForecast outcome = none
    ∧ getCurrentWeather (fetchHaldenForecast outcome) =
        .ok (.failure "❌ Unable to fetch current weather data from YR API. Please try again later.")
    ∧ getHourlyForecast (fetchHaldenForecast outcome) =
        .ok (.failure "Failed to get forecast data.")
    ∧ get3DayForecast (fetchHaldenForecast outcome) =
        .ok (.failure "Failed to get forecast data.")
    ∧ (∀ key so, suggestActivities (fetchHaldenForecast outcome) key so =
        .ok (.failure "❌ Unable to get weather data for activity suggestions.")) := by
  have hnone : fetchHaldenForecast outcome = none := by
    cases outcome with
    | ok d => exact absurd rfl (h d)
    | httpError s => rfl
    | networkError => rfl
    | malformedJson => rfl
  rw [hnone]
  exact ⟨rfl, rfl, rfl, rfl, fun key so => rfl⟩

/-- Witness for C4 at a network-level failure. -/
theorem fetch_failure_uniform_witness :
    (∀ d, FetchOutcome.networkError ≠ FetchOutcome.ok d)
    ∧ fetchHaldenForecast .networkError = none
    ∧ getCurrentWeather (fetchHaldenForecast .networkError) =
        .ok (.failure "❌ Unable to fetch current weather data from YR API. Please try again later.") := by
  have hne : ∀ d, FetchOutcome.networkError ≠ FetchOutcome.ok d := by
    intro d hd
    cases hd
  exact ⟨hne, (fetch_failure_uniform .networkError hne).1,
    (fetch_failure_uniform .networkError hne).2.1⟩

/-- C5: with no truthy credential the search client returns the null
sentinel with no network call issued, whatever the would-be exchange
outcome; with a credential and a parsed body it returns the body as
parsed (order preserved), and a body with an empty result list is
distinct from the sentinel. -/
theorem braveSearch_credential (key : Option String) (q : String) (n : Nat) :
    (keyConfigured key = false →
      ∀ so, braveSearch key q n so = (none, false))
    ∧ (keyConfigured key = true →
      ∀ body, braveSearch key q n (.ok body) = (some body, true))
    ∧ (∀ results : List SearchResult,
        some (SearchBody.mk (some (WebSection.mk results))) ≠
          (none : Option SearchBody)) := by
  refine ⟨?_, ?_, ?_⟩
  · intro hk so
    simp [braveSearch, hk]
  · intro hk body
    simp [braveSearch, hk]
  · intro results h
    cases h

/-- Witness for C5: no key means sentinel and no call; a key and a
2-result body mean the body comes back unchanged. -/
theorem braveSearch_credential_witness :
    braveSearch none "x" 3 .networkError = (none, false)
    ∧ braveSearch (some "k") "x" 3
        (.ok ⟨some ⟨[⟨"t1", "u1", "d1"⟩, ⟨"t2", "u2", "d2"⟩]⟩⟩) =
      (some ⟨some ⟨[⟨"t1", "u1", "d1"⟩, ⟨"t2", "u2", "d2"⟩]⟩⟩, true) :=
  ⟨(braveSearch_credential none "x" 3).1 (by decide) .networkError,
   (braveSearch_credential (some "k") "x" 3).2.1 (by decide) _⟩

/-- C6 counterexample: a successfully parsed body with an empty
timeseries passes the sentinel check unchanged, and the current-weather
handler then raises at the index-0 access instead of returning its
fixed failure text. -/
theorem emptyTimeseries_counterexample :
    fetchHaldenForecast (.ok emptyForecast) = some emptyForecast
    ∧ getCurrentWeather (some emptyForecast) = .error .typeError
    ∧ getCurrentWeather (some emptyForecast) ≠
        .ok (.failure "❌ Unable to fetch current weather data from YR API. Please try again later.") := by
  refine ⟨rfl, rfl, ?_⟩
  intro h
  cases h

/-- C6 amended: an empty timeseries is not treated as fetch failure;
the current-weather and activity handlers proceed past the sentinel
check and raise a runtime type error at the index-0 access, while the
hourly and 3-day handlers return a success text with zero entry lines;
no handler returns the fixed failure text for it. -/
theorem emptyTimeseries_behavior :
    fetchHaldenForecast (.ok emptyForecast) = some emptyForecast
    ∧ getCurrentWeather (some emptyForecast) = .error .typeError
    ∧ (∀ key so, suggestActivities (some emptyForecast) key so = .error .typeError)
    ∧ getHourlyForecast (some emptyForecast) = .ok (.ok [])
    ∧ get3DayForecast (some emptyForecast) = .ok (.ok []) :=
  ⟨rfl, rfl, fun _ _ => rfl, rfl, rfl⟩

lemma ratFloor_eq_zero {q : Rat} (h0 : 0 ≤ q) (h1 : q < 1) : q.floor = 0 := by
  have ha : (0 : Int) ≤ q.floor := Rat.le_floor.mpr (by exact_mod_cast h0)
  have hb : ¬ (1 : Int) ≤ q.floor := by
    intro hge
    have : (1 : Rat) ≤ q := by exact_mod_cast Rat.le_floor.mp hge
    exact absurd this (not_le.mpr h1)
  omega

/-- C7 counterexample: a day whose raw precipitation total is 0.01,
strictly positive, yet the formatted total compares equal to 0 and the
annotation is not emitted. -/
theorem rainNote_counterexample :
    ∃ lines, get3DayForecast (some examplePrecipSmall) = .ok (.ok lines)
      ∧ (groupByDay examplePrecipSmall.properties.timeseries).map
          (fun p => p.2.precipitation) = [1 / 100]
      ∧ (0 : Rat) < 1 / 100
      ∧ lines.map (fun d => d.rainNote) = [false] := by
  have hgroup : groupByDay examplePrecipSmall.properties.timeseries =
      [(0, { temps := [5], conditions := [], precipitation := 1 / 100 })] := by
    simp only [examplePrecipSmall, groupByDay, List.foldl, addEntry]
    norm_num [pushEntry, emptyDayData, entryDayKey, dayKey, entryTemp,
      truthyCode, symbolCodeOf, precipAmountOf, mkEntry]
  have hf35 : ((10 * (1 / 100 : Rat) + 1 / 2)).floor = 0 := by
    apply ratFloor_eq_zero <;> norm_num
  refine ⟨_, rfl, ?_, by norm_num, ?_⟩
  · rw [hgroup]
    rfl
  · show (((groupByDay examplePrecipSmall.properties.timeseries).take 3).map
        dayLineOf).map (fun d => d.rainNote) = [false]
    rw [hgroup]
    simp [dayLineOf, toFixed1, hf35]
    rw [show (10 * (100⁻¹ : Rat) + 2⁻¹) = 10 * (1 / 100) + 1 / 2 from by
      norm_num, hf35]

/-- C7 amended: the per-day precipitation annotation appears exactly
when the total formatted to one decimal place is greater than 0, that
is when the total rounds to at least one tenth; the raw total being
strictly positive is not sufficient. -/
theorem rainNote_amended (entries : List ForecastEntry) (f : Forecast)
    (hf : f.properties.timeseries = entries) :
    get3DayForecast (some f) = .ok (.ok
      (((firstSeen (entries.map entryDayKey)).take 3).map
        (fun k => dayLineOf (k, dayDataFor k entries))))
    ∧ ∀ k ∈ (firstSeen (entries.map entryDayKey)).take 3,
        ((dayLineOf (k, dayDataFor k entries)).rainNote = true ↔
          1 ≤ (10 * ((dayEntries k entries).map
                (fun e => jsOrZero (precipAmountOf e))).sum + 1 / 2).floor) := by
  constructor
  · simp only [get3DayForecast, hf, groupByDay_eq, List.map_take,
      List.map_map, Function.comp]
    rfl
  · intro k _
    show decide (0 < toFixed1 (dayDataFor k entries).precipitation) = true ↔ _
    rw [decide_eq_true_eq]
    have hprecip : (dayDataFor k entries).precipitation =
        ((dayEntries k entries).map (fun e => jsOrZero (precipAmountOf e))).sum := rfl
    rw [toFixed1, hprecip]
    constructor
    · intro hpos
      by_contra hlt
      push_neg at hlt
      have hle : ((10 * ((dayEntries k entries).map
          (fun e => jsOrZero (precipAmountOf e))).sum + 1 / 2).floor : Int) ≤ 0 := by
        omega
      have : ((10 * ((dayEntries k entries).map
          (fun e => jsOrZero (precipAmountOf e))).sum + 1 / 2).floor : Rat) / 10 ≤ 0 := by
        apply div_nonpos_of_nonpos_of_nonneg
        · exact_mod_cast hle
        · norm_num
      exact absurd hpos (not_lt.mpr this)
    · intro hge
      have h1 : (1 : Rat) ≤ ((10 * ((dayEntries k entries).map
          (fun e => jsOrZero (precipAmountOf e))).sum + 1 / 2).floor : Rat) := by
        exact_mod_cast hge
      have h0 : (0 : Rat) < ((10 * ((dayEntries k entries).map
          (fun e => jsOrZero (precipAmountOf e))).sum + 1 / 2).floor : Rat) :=
        lt_of_lt_of_le one_pos h1
      exact div_pos h0 (by norm_num)

/-- Witness for C7 amended, at a day total of 0.05, which rounds to one
tenth. -/
theorem rainNote_amended_witness :
    (0 : Nat) ∈ (firstSeen
        ((examplePrecipHalf.properties.timeseries).map entryDayKey)).take 3
    ∧ ((dayLineOf
          (0, dayDataFor 0 examplePrecipHalf.properties.timeseries)).rainNote = true ↔
        1 ≤ (10 * ((dayEntries 0 examplePrecipHalf.properties.timeseries).map
              (fun e => jsOrZero (precipAmountOf e))).sum + 1 / 2).floor) :=
  ⟨by decide,
   (rainNote_amended examplePrecipHalf.properties.timeseries
      examplePrecipHalf rfl).2 0 (by decide)⟩

/-- C9: on every successfully fetched forecast the hourly handler
formats exactly min(12, series length) lines, one per entry in order,
each carrying the hour of day, icon, temperature and wind of its entry,
with the precipitation suffix exactly when the next-hour amount of that
entry is present and greater than 0. -/
theorem getHourlyForecast_lines (f : Forecast) (i : Nat)
    (hi : i < (hourlyLines f).length) :
    getHourlyForecast (some f) = .ok (.ok (hourlyLines f))
    ∧ (hourlyLines f).length = min 12 f.properties.timeseries.length
    ∧ ∃ hts : i < f.properties.timeseries.length,
        (hourlyLines f).get ⟨i, hi⟩ =
          hourLineOf (f.properties.timeseries.get ⟨i, hts⟩)
        ∧ ((hourlyLines f).get ⟨i, hi⟩).hour =
            hourOfDay (f.properties.timeseries.get ⟨i, hts⟩).time
        ∧ ((hourlyLines f).get ⟨i, hi⟩).icon =
            formatWeatherIcon (symbolCodeOf (f.properties.timeseries.get ⟨i, hts⟩))
        ∧ ((hourlyLines f).get ⟨i, hi⟩).temp =
            entryTemp (f.properties.timeseries.get ⟨i, hts⟩)
        ∧ ((hourlyLines f).get ⟨i, hi⟩).wind =
            entryWind (f.properties.timeseries.get ⟨i, hts⟩)
        ∧ (((hourlyLines f).get ⟨i, hi⟩).rainNote = true ↔
            ∃ a, precipAmountOf (f.properties.timeseries.get ⟨i, hts⟩) = some a
              ∧ 0 < a) := by
  have hlen : (hourlyLines f).length = min 12 f.properties.timeseries.length := by
    simp [hourlyLines]
  have hi' : i < min 12 f.properties.timeseries.length := hlen ▸ hi
  have h12 : i < 12 := lt_of_lt_of_le hi' (min_le_left _ _)
  have hts : i < f.properties.timeseries.length :=
    lt_of_lt_of_le hi' (min_le_right _ _)
  have hitake : i < (f.properties.timeseries.take 12).length := by
    simpa using hi'
  have hget : (f.properties.timeseries.take 12).get ⟨i, hitake⟩ =
      f.properties.timeseries.get ⟨i, hts⟩ := by
    have hq : (f.properties.timeseries.take 12)[i]? =
        f.properties.timeseries[i]? := List.getElem?_take_of_lt h12
    rw [List.getElem?_eq_getElem hitake, List.getElem?_eq_getElem hts] at hq
    exact Option.some.inj hq
  have hmain : (hourlyLines f).get ⟨i, hi⟩ =
      hourLineOf (f.properties.timeseries.get ⟨i, hts⟩) := by
    calc (hourlyLines f).get ⟨i, hi⟩
        = hourLineOf ((f.properties.timeseries.take 12).get ⟨i, hitake⟩) := by
          simp [hourlyLines]
      _ = hourLineOf (f.properties.timeseries.get ⟨i, hts⟩) := by rw [hget]
  refine ⟨rfl, hlen, hts, hmain, ?_, ?_, ?_, ?_, ?_⟩
  · rw [hmain]; rfl
  · rw [hmain]; rfl
  · rw [hmain]; rfl
  · rw [hmain]; rfl
  · rw [hmain]
    show decide (0 < jsOrZero
      (precipAmountOf (f.properties.timeseries.get ⟨i, hts⟩))) = true ↔ _
    rw [decide_eq_true_eq]
    cases hp : precipAmountOf (f.properties.timeseries.get ⟨i, hts⟩) with
    | none =>
      simp [jsOrZero]
    | some a =>
      by_cases ha : a = 0
      · subst ha
        simp [jsOrZero]
      · simp only [jsOrZero, ha, if_false]
        constructor
        · intro hpos
          exact ⟨a, rfl, hpos⟩
        · rintro ⟨b, hb, hbpos⟩
          cases hb
          exact hbpos

/-- Witness for C9 at a one-entry forecast and index 0. -/
theorem getHourlyForecast_lines_witness :
    getHourlyForecast (some exampleHourly) = .ok (.ok (hourlyLines exampleHourly))
    ∧ (hourlyLines exampleHourly).length =
        min 12 exampleHourly.properties.timeseries.length
    ∧ ∃ hts : 0 < exampleHourly.properties.timeseries.length,
        (hourlyLines exampleHourly).get ⟨0, by decide⟩ =
          hourLineOf (exampleHourly.properties.timeseries.get ⟨0, hts⟩)
        ∧ ((hourlyLines exampleHourly).get ⟨0, by decide⟩).hour =
            hourOfDay (exampleHourly.properties.timeseries.get ⟨0, hts⟩).time
        ∧ ((hourlyLines exampleHourly).get ⟨0, by decide⟩).icon =
            formatWeatherIcon (symbolCodeOf (exampleHourly.properties.timeseries.get ⟨0, hts⟩))
        ∧ ((hourlyLines exampleHourly).get ⟨0, by decide⟩).temp =
            entryTemp (exampleHourly.properties.timeseries.get ⟨0, hts⟩)
        ∧ ((hourlyLines exampleHourly).get ⟨0, by decide⟩).wind =
            entryWind (exampleHourly.properties.timeseries.get ⟨0, hts⟩)
        ∧ (((hourlyLines exampleHourly).get ⟨0, by decide⟩).rainNote = true ↔
            ∃ a, precipAmountOf (exampleHourly.properties.timeseries.get ⟨0, hts⟩) = some a
              ∧ 0 < a) :=
  getHourlyForecast_lines exampleHourly 0 (by decide)

/-- C10: on a parsed forecast with a non-empty timeseries in which
every entry lacks the optional next_1_hours block, no handler raises:
the current-weather and hourly handlers use the default glyph and
precipitation 0, the 3-day handler emits its day lines with empty
condition lists, zero totals and the default glyph, and the activity
handler evaluates the precipitation band as false, falling through to
the temperature bands. -/
theorem handlers_total_without_next1h (f : Forecast) (e0 : ForecastEntry)
    (rest : List ForecastEntry) (key : Option String) (so : SearchOutcome)
    (hts : f.properties.timeseries = e0 :: rest)
    (hnone : ∀ e ∈ f.properties.timeseries, e.data.next_1_hours = none) :
    (∃ cw, getCurrentWeather (some f) = .ok (.ok cw) ∧ cw.icon = "🌤️")
    ∧ (∃ hl, getHourlyForecast (some f) = .ok (.ok hl)
        ∧ ∀ line ∈ hl,
            line.icon = "🌤️" ∧ line.precip = 0 ∧ line.rainNote = false)
    ∧ (∃ dl, get3DayForecast (some f) = .ok (.ok dl)
        ∧ (∀ p ∈ groupByDay f.properties.timeseries, p.2.conditions = [])
        ∧ ∀ d ∈ dl, d.icon = "🌤️" ∧ d.rain = 0 ∧ d.rainNote = false)
    ∧ (∃ out, suggestActivities (some f) key so = .ok (.ok out)
        ∧ out.suggestions.head? = some (if 15 < entryTemp e0 then outdoorMsg
            else if entryTemp e0 < 5 then coldMsg else mildMsg)) := by
  have he0 : e0 ∈ f.properties.timeseries := by
    rw [hts]
    exact List.mem_cons_self _ _
  have hn0 : e0.data.next_1_hours = none := hnone e0 he0
  have hsym0 : symbolCodeOf e0 = none := by simp [symbolCodeOf, hn0]
  have hpre0 : precipAmountOf e0 = none := by simp [precipAmountOf, hn0]
  have htf0 : toFixed1 0 = 0 := by
    rw [toFixed1]
    have hhalf : ((10 * (0 : Rat) + 1 / 2)).floor = 0 := by
      apply ratFloor_eq_zero <;> norm_num
    rw [show (10 * (0 : Rat) + 1 / 2) = 1 / 2 from by norm_num] at hhalf
    rw [show (10 * (0 : Rat) + 1 / 2) = 1 / 2 from by norm_num, hhalf]
    norm_num
  have hgroups : ∀ p ∈ groupByDay f.properties.timeseries,
      p.2.conditions = [] ∧ p.2.precipitation = 0 := by
    intro p hp
    rw [groupByDay_eq] at hp
    obtain ⟨k, _, rfl⟩ := List.mem_map.mp hp
    constructor
    · show (dayEntries k f.properties.timeseries).filterMap truthyCode = []
      rw [List.filterMap_eq_nil_iff]
      intro e he
      have hets : e ∈ f.properties.timeseries := List.mem_of_mem_filter he
      simp [truthyCode, symbolCodeOf, hnone e hets]
    · show ((dayEntries k f.properties.timeseries).map
          (fun e => jsOrZero (precipAmountOf e))).sum = 0
      apply List.sum_eq_zero
      intro x hx
      obtain ⟨e, he, rfl⟩ := List.mem_map.mp hx
      have hets : e ∈ f.properties.timeseries := List.mem_of_mem_filter he
      simp [jsOrZero, precipAmountOf, hnone e hets]
  refine ⟨?_, ?_, ?_, ?_⟩
  · have hcw : getCurrentWeather (some f) = .ok (.ok
        { icon := formatWeatherIcon (symbolCodeOf e0)
        , temperature := e0.data.instant.details.air_temperature
        , wind := e0.data.instant.details.wind_speed
        , humidity := e0.data.instant.details.relative_humidity
        , pressure := e0.data.instant.details.air_pressure_at_sea_level }) := by
      simp [getCurrentWeather, hts]
    refine ⟨_, hcw, ?_⟩
    simp [hsym0, formatWeatherIcon]
  · refine ⟨hourlyLines f, rfl, ?_⟩
    intro line hline
    obtain ⟨e, he, rfl⟩ := List.mem_map.mp hline
    have hets : e ∈ f.properties.timeseries := List.mem_of_mem_take he
    have hne : e.data.next_1_hours = none := hnone e hets
    refine ⟨?_, ?_, ?_⟩
    · simp [hourLineOf, symbolCodeOf, hne, formatWeatherIcon]
    · simp [hourLineOf, jsOrZero, precipAmountOf, hne]
    · simp [hourLineOf, jsOrZero, precipAmountOf, hne]
  · refine ⟨_, rfl, fun p hp => (hgroups p hp).1, ?_⟩
    intro d hd
    obtain ⟨p, hp, rfl⟩ := List.mem_map.mp hd
    have hpg : p ∈ groupByDay f.properties.timeseries := List.mem_of_mem_take hp
    obtain ⟨hc, hprec⟩ := hgroups p hpg
    have hmc : jsMostCommon p.2.conditions = none := by
      simp [jsMostCommon, hc]
    refine ⟨?_, ?_, ?_⟩
    · simp [dayLineOf, hmc, formatWeatherIcon]
    · simp [dayLineOf, hprec, htf0]
    · simp [dayLineOf, hprec, htf0]
  · have hr0 : hasRainOf e0 = false := by simp [hasRainOf, hpre0]
    have hsq := buildSuggestions_eq (hasRainOf e0) (entryTemp e0) (entryWind e0)
    have hout := suggestActivities_some f e0 rest key so hts _ _ hsq
    refine ⟨_, hout, ?_⟩
    simp [hr0]

/-- Witness for C10 at a one-entry forecast with no next-hour block. -/
theorem handlers_total_without_next1h_witness :
    (∃ cw, getCurrentWeather (some exampleNoN1H) = .ok (.ok cw) ∧ cw.icon = "🌤️")
    ∧ (∃ hl, getHourlyForecast (some exampleNoN1H) = .ok (.ok hl)
        ∧ ∀ line ∈ hl,
            line.icon = "🌤️" ∧ line.precip = 0 ∧ line.rainNote = false)
    ∧ (∃ dl, get3DayForecast (some exampleNoN1H) = .ok (.ok dl)
        ∧ (∀ p ∈ groupByDay exampleNoN1H.properties.timeseries, p.2.conditions = [])
        ∧ ∀ d ∈ dl, d.icon = "🌤️" ∧ d.rain = 0 ∧ d.rainNote = false)
    ∧ (∃ out, suggestActivities (some exampleNoN1H) none .networkError = .ok (.ok out)
        ∧ out.suggestions.head? = some
            (if 15 < entryTemp (mkEntry 0 10 3 none) then outdoorMsg
             else if entryTemp (mkEntry 0 10 3 none) < 5 then coldMsg
             else mildMsg)) :=
  handlers_total_without_next1h exampleNoN1H (mkEntry 0 10 3 none) []
    none .networkError rfl (by decide)

end HaldenWeather
